import Mathlib

/-!
Verification of the JSON-RPC 2.0 client/server library (`src/types.rs`,
`src/server.rs`, `src/client.rs`) against its specification.

The development shallowly embeds the serde data flow: JSON values are the
inductive `Json`, serde's `Value` number representations are `JNumber`
(serde keeps unsigned integers, negative integers and floating literals
as distinct representations), struct (de)serialization derived by serde
is written out field by field, and the server dispatch functions
`_handle`, `_batch_handle` and the HTTP service closure are explicit
functions returning `Except ServerErr Json` where the Rust propagates an
`anyhow::Error` to the transport layer.
-/

/-- serde_json's `Number`: a positive integer (`u64`), a negative integer
(`i64`) or a floating literal (`f64`).  The floating representation is
modelled abstractly as a mantissa/exponent pair; what matters for the
protocol claims is only that it is a representation distinct from the
integer ones and that equality of representations is decidable. -/
inductive JNumber where
  | posInt : Nat → JNumber
  | negInt : Int → JNumber
  | float : Int → Int → JNumber
deriving DecidableEq, Repr

/-- serde_json's `Value`: the JSON data model.  Objects are association
lists of key/value pairs in serialization order. -/
inductive Json where
  | null : Json
  | bool : Bool → Json
  | num : JNumber → Json
  | str : String → Json
  | arr : List Json → Json
  | obj : List (String × Json) → Json
deriving Repr

/-- `Value::is_object`. -/
def Json.is_object : Json → Bool
  | .obj _ => true
  | _ => false

/-- `Value::is_array`. -/
def Json.is_array : Json → Bool
  | .arr _ => true
  | _ => false

/-- Field lookup in a serialized JSON object: `some v` when the object has
the field, `none` when the value is not an object or lacks the field. -/
def Json.field : Json → String → Option Json
  | .obj fields, name => (fields.find? (fun p => p.1 == name)).map (fun p => p.2)
  | _, _ => none

/-- serde's serialization of an `Option<T>` field without
`skip_serializing_if`: `None` is emitted as JSON `null`. -/
def encodeOption (enc : T → Json) : Option T → Json
  | none => Json.null
  | some t => enc t

/-- serde's serialization of an `i32` into a serde_json number. -/
def JNumber.ofInt (n : Int) : JNumber :=
  if 0 ≤ n then .posInt n.toNat else .negInt n

/-- `struct RPCRequest<T> { jsonrpc, method, params: T, id: Value }`
(src/types.rs). -/
structure RPCRequest (T : Type) where
  jsonrpc : String
  method : String
  params : T
  id : Json

/-- `RPCRequest::new`: the client-side constructor with the constant
placeholder id `1` (src/types.rs). -/
def RPCRequest.new (method : String) (params : T) : RPCRequest T :=
  { jsonrpc := "2.0", method := method, params := params, id := Json.num (JNumber.posInt 1) }

/-- `struct RPCError { code: i32, message: String, data: Option<String> }`
(src/types.rs). -/
structure RPCError where
  code : Int
  message : String
  data : Option String
deriving DecidableEq, Repr

/-- `RPCError::unknown_method` (src/types.rs). -/
def RPCError.unknown_method : RPCError :=
  { code := -32601, message := "Method not found", data := none }

/-- `RPCError::parse_error` (src/types.rs). -/
def RPCError.parse_error : RPCError :=
  { code := -32700, message := "Parse error", data := none }

/-- `RPCError::invalid_params` (src/types.rs). -/
def RPCError.invalid_params : RPCError :=
  { code := -32602, message := "Invalid params", data := none }

/-- `RPCError::internal_error(data)` (src/types.rs). -/
def RPCError.internal_error (data : String) : RPCError :=
  { code := -32603, message := "Internal error", data := some data }

/-- The serde-derived serialization of `RPCError`: fields in declaration
order, with `data` dropped when `None` because of its
`#[serde(skip_serializing_if = "Option::is_none")]` attribute. -/
def RPCError.toJson (e : RPCError) : Json :=
  Json.obj ([("code", Json.num (JNumber.ofInt e.code)), ("message", Json.str e.message)]
    ++ (match e.data with
        | none => []
        | some d => [("data", Json.str d)]))

/-- `struct RPCResponse<T> { jsonrpc, result: Option<T>, error: Option<RPCError>, id }`
(src/types.rs). -/
structure RPCResponse (T : Type) where
  jsonrpc : String
  result : Option T
  error : Option RPCError
  id : Json

/-- `RPCResponse::result(id, t)` (src/types.rs). -/
def RPCResponse.result_ctor (id : Json) (t : Option T) : RPCResponse T :=
  { jsonrpc := "2.0", result := t, error := none, id := id }

/-- `RPCResponse::error(id, e)` (src/types.rs). -/
def RPCResponse.error_ctor (id : Json) (e : RPCError) : RPCResponse T :=
  { jsonrpc := "2.0", result := none, error := some e, id := id }

/-- `RPCResponse::into_value` (src/types.rs): when `error` is set the
response is serialized through `RPCResponseError` (which has no `result`
field), otherwise through `RPCResponseResult` (which has no `error`
field and whose `result: Option<T>` serializes `None` as `null`).
Fields appear in the structs' declaration order. -/
def RPCResponse.into_value (enc : T → Json) (self : RPCResponse T) : Json :=
  match self.error with
  | some e =>
      Json.obj [("jsonrpc", Json.str self.jsonrpc), ("error", RPCError.toJson e),
                ("id", self.id)]
  | none =>
      Json.obj [("jsonrpc", Json.str self.jsonrpc), ("result", encodeOption enc self.result),
                ("id", self.id)]

/-- The serde-derived serialization of `RPCResponse` itself (used by
`_batch_handle` via `serde_json::to_value(Vec<RPCResponse<T>>)`): all
four fields are emitted, `None` options as `null`. -/
def RPCResponse.toJson (enc : T → Json) (r : RPCResponse T) : Json :=
  Json.obj [("jsonrpc", Json.str r.jsonrpc), ("result", encodeOption enc r.result),
            ("error", encodeOption RPCError.toJson r.error), ("id", r.id)]

/-- One step of serde's derived struct deserialization for a known field
`name`: `some none` when the field is missing, `some (some v)` when it
appears exactly once with value `v`, and `none` (a "duplicate field"
error) when it appears more than once. -/
def fieldOnce (fields : List (String × Json)) (name : String) : Option (Option Json) :=
  match fields.filter (fun p => p.1 == name) with
  | [] => some none
  | [p] => some (some p.2)
  | _ => none

/-- serde deserialization of a `String` field value. -/
def decodeString : Json → Option String
  | .str s => some s
  | _ => none

/-- serde deserialization of an `Option<R>` params field, given a decoder
for `R`: a missing field and an explicit `null` both give `None`; any
other value must decode as an `R`. -/
def decodeOptionField (decR : Json → Option R) : Option Json → Option (Option R)
  | none => some none
  | some Json.null => some none
  | some j => (decR j).map some

/-- The serde-derived deserialization of `RPCRequest<T>`
(`serde_json::from_value`): the value must be a JSON object; `jsonrpc`
and `method` are required strings, `id` is a required arbitrary `Value`
kept exactly as received, and `params` is decoded by the
field decoder `decP` (for `T = Option<R>` this is `decodeOptionField`,
which tolerates a missing field).  Unknown fields are ignored; a
duplicated known field is an error. -/
def RPCRequest.fromJson (decP : Option Json → Option T) (j : Json) : Option (RPCRequest T) :=
  match j with
  | .obj fields => do
      let jrpcF ← fieldOnce fields "jsonrpc"
      let jsonrpc ← jrpcF.bind decodeString
      let methodF ← fieldOnce fields "method"
      let method ← methodF.bind decodeString
      let paramsF ← fieldOnce fields "params"
      let params ← decP paramsF
      let idF ← fieldOnce fields "id"
      let id ← idF
      pure { jsonrpc := jsonrpc, method := method, params := params, id := id }
  | _ => none

/-- The serde-derived serialization of `RPCRequest<T>`: all four fields
in declaration order, `id` emitted exactly as stored. -/
def RPCRequest.toJson (encP : T → Json) (r : RPCRequest T) : Json :=
  Json.obj [("jsonrpc", Json.str r.jsonrpc), ("method", Json.str r.method),
            ("params", encP r.params), ("id", r.id)]

/-- serde deserialization of `Vec<RPCRequest<T>>`: the value must be a
JSON array and every element must deserialize as an `RPCRequest<T>`. -/
def decodeRequestList (decP : Option Json → Option T) : Json → Option (List (RPCRequest T))
  | .arr xs => xs.mapM (RPCRequest.fromJson decP)
  | _ => none

/-- The `Handle` trait's required operation
`handle(&self, method, req: Option<Request>) -> Result<Option<Response>, RPCError>`
(src/server.rs), modelled as a function value. -/
def HandleFn (Req Resp : Type) : Type :=
  String → Option Req → Except RPCError (Option Resp)

/-- The body of the closure passed to `map_or_else` in the default
`batch_handle`, and of the `match` in `_handle`: a handler success
becomes `RPCResponse::result(id, v)`, a handler failure becomes
`RPCResponse::error(id, e)` (src/server.rs). -/
def responseOf (h : HandleFn Req Resp) (req : RPCRequest (Option Req)) : RPCResponse Resp :=
  match h req.method req.params with
  | .ok v => RPCResponse.result_ctor req.id v
  | .error e => RPCResponse.error_ctor req.id e

/-- The `Handle` trait's default `batch_handle` (src/server.rs): a loop
that pushes, for each request in order, the response produced by
`handle` on that request's method and params. -/
def batch_handle (h : HandleFn Req Resp) (reqests : List (RPCRequest (Option Req))) :
    List (RPCResponse Resp) :=
  reqests.foldl (fun response reqest => response ++ [responseOf h reqest]) []

/-- The ways the server's per-request future resolves to `Err(_)`
(an `anyhow::Error` handed to hyper, i.e. a transport-level failure with
no JSON-RPC response body): a `serde_json` deserialization failure
propagated by `?`, or the explicit `anyhow!("Unsupport type")`. -/
inductive ServerErr where
  | decodeError : ServerErr
  | unsupportType : ServerErr
deriving DecidableEq, Repr

/-- `_handle` (src/server.rs): deserialize one `RPCRequest<Option<Req>>`
from the decoded body (propagating failure with `?`), call the handler,
wrap the outcome with the request's id, and serialize via `into_value`. -/
def _handle (h : HandleFn Req Resp) (decR : Json → Option Req) (encResp : Resp → Json)
    (req_body : Json) : Except ServerErr Json :=
  match RPCRequest.fromJson (decodeOptionField decR) req_body with
  | none => Except.error ServerErr.decodeError
  | some req => Except.ok ((responseOf h req).into_value encResp)

/-- `_batch_handle` (src/server.rs): deserialize a `Vec<RPCRequest<_>>`
from the decoded body (propagating failure with `?`), run the default
`batch_handle`, and serialize the response vector with the derived
`RPCResponse` serializer. -/
def _batch_handle (h : HandleFn Req Resp) (decR : Json → Option Req) (encResp : Resp → Json)
    (req_body : Json) : Except ServerErr Json :=
  match decodeRequestList (decodeOptionField decR) req_body with
  | none => Except.error ServerErr.decodeError
  | some req => Except.ok (Json.arr ((batch_handle h req).map (RPCResponse.toJson encResp)))

/-- The dispatch in `HandleHttp::call` (src/server.rs) after the body has
been decoded to a `serde_json::Value`: an object goes to `_handle`, an
array to `_batch_handle`, and any other shape returns
`Err(anyhow!("Unsupport type"))` before any JSON-RPC response exists. -/
def handleHttpCall (h : HandleFn Req Resp) (decR : Json → Option Req) (encResp : Resp → Json)
    (req_body : Json) : Except ServerErr Json :=
  if req_body.is_object then _handle h decR encResp req_body
  else if req_body.is_array then _batch_handle h decR encResp req_body
  else Except.error ServerErr.unsupportType

/-- `StatusCode::is_success`: the 2xx range. -/
def statusIsSuccess (status_code : Nat) : Bool :=
  200 ≤ status_code && status_code < 300

/-- The client's `call` (src/client.rs) from the point where the HTTP
exchange has resolved: a transport failure from `http_post` is mapped by
`map_err` to `internal_error`; a non-success status returns
`internal_error("Failed to request uri")` without touching the body;
otherwise the body is parsed as an `RPCResponse` (a parse failure again
becoming `internal_error`), a response carrying an error surfaces that
error, and otherwise the (possibly absent) result is returned.  The
bytes of the body are an abstract type `B` with a parse oracle, since
the claims never inspect a successfully parsed body's byte form. -/
def call (parse : B → Except String (RPCResponse R))
    (exchange : Except String (Nat × B)) : Except RPCError (Option R) :=
  match exchange with
  | .error e => Except.error (RPCError.internal_error e)
  | .ok (status_code, bytes) =>
      if !(statusIsSuccess status_code) then
        Except.error (RPCError.internal_error "Failed to request uri")
      else
        match parse bytes with
        | .error e => Except.error (RPCError.internal_error e)
        | .ok resp =>
            match resp.error with
            | some e => Except.error e
            | none => Except.ok resp.result

/-- A concrete handler used to exercise the server functions: it answers
the method `"echo"` with its params and anything else with
`unknown_method`, as a minimal instance of the `Handle` contract. -/
def exHandler : HandleFn Json Json := fun m p =>
  if m = "echo" then Except.ok p else Except.error RPCError.unknown_method

/-- A second concrete handler that rejects everything, used to show that
certain outcomes do not depend on the handler. -/
def exHandlerReject : HandleFn Json Json := fun _ _ =>
  Except.error RPCError.invalid_params

/-- A well-formed request body for `exHandler`. -/
def exGoodReq : Json :=
  Json.obj [("jsonrpc", Json.str "2.0"), ("method", Json.str "echo"),
            ("params", Json.num (JNumber.posInt 7)), ("id", Json.num (JNumber.posInt 2))]

/-- A batch whose second item is not deserializable as a request. -/
def exBadBatch : Json := Json.arr [exGoodReq, Json.str "oops"]

/-- A batch whose first item is not deserializable as a request. -/
def exBadBatchFirst : Json := Json.arr [Json.null, exGoodReq]

/-- A well-formed request whose id is the floating literal `1.0`
(a representation distinct from the integer `1`). -/
def exReqFloatId : Json :=
  Json.obj [("jsonrpc", Json.str "2.0"), ("method", Json.str "echo"),
            ("params", Json.null), ("id", Json.num (JNumber.float 1 0))]

/-- The decoded form of `exReqFloatId`. -/
def exReqFloat : RPCRequest (Option Json) :=
  { jsonrpc := "2.0", method := "echo", params := none, id := Json.num (JNumber.float 1 0) }

/-- A well-formed request whose id is the string `"abc"`. -/
def exReqStrId : Json :=
  Json.obj [("jsonrpc", Json.str "2.0"), ("method", Json.str "echo"),
            ("params", Json.null), ("id", Json.str "abc")]

/-- The decoded form of `exReqStrId`. -/
def exReqStr : RPCRequest (Option Json) :=
  { jsonrpc := "2.0", method := "echo", params := none, id := Json.str "abc" }

/-- A well-formed request whose id is JSON `null`. -/
def exReqNullId : Json :=
  Json.obj [("jsonrpc", Json.str "2.0"), ("method", Json.str "echo"),
            ("params", Json.null), ("id", Json.null)]

/-- The decoded form of `exReqNullId`. -/
def exReqNull : RPCRequest (Option Json) :=
  { jsonrpc := "2.0", method := "echo", params := none, id := Json.null }

/-- A body-parse oracle for the client that always fails. -/
def exParseFail : Unit → Except String (RPCResponse Unit) := fun _ => Except.error "bad body"

/-- A body-parse oracle for the client that always succeeds. -/
def exParseOk : Unit → Except String (RPCResponse Unit) := fun _ =>
  Except.ok { jsonrpc := "2.0", result := none, error := none, id := Json.null }

theorem optionBindNone (o : Option α) : (o.bind fun _ => (none : Option β)) = none := by
  cases o <;> rfl

theorem batch_handle_eq_map (h : HandleFn Req Resp) (reqests : List (RPCRequest (Option Req))) :
    batch_handle h reqests = reqests.map (responseOf h) := by
  suffices hgen : ∀ acc, reqests.foldl (fun response reqest => response ++ [responseOf h reqest]) acc
      = acc ++ reqests.map (responseOf h) by
    simpa [batch_handle] using hgen []
  induction reqests with
  | nil => intro acc; simp
  | cons x xs ih => intro acc; simp [List.foldl_cons, ih]

theorem responseOf_id (h : HandleFn Req Resp) (req : RPCRequest (Option Req)) :
    (responseOf h req).id = req.id := by
  unfold responseOf
  cases h req.method req.params <;> rfl

theorem mapM_eq_none_of_mem {f : α → Option β} {xs : List α} {j : α}
    (hmem : j ∈ xs) (hbad : f j = none) : xs.mapM f = none := by
  induction xs with
  | nil => cases hmem
  | cons x tl ih =>
    rw [List.mapM_cons]
    rcases List.mem_cons.mp hmem with hj | hj
    · subst hj; simp [hbad]
    · cases hfx : f x
      · simp
      · rw [ih hj]
        rfl

theorem find?_of_filter_eq_singleton {α} {p : α → Bool} {xs : List α} {a : α}
    (h : xs.filter p = [a]) : xs.find? p = some a := by
  induction xs with
  | nil => simp at h
  | cons x tl ih =>
    cases hx : p x with
    | true =>
      rw [List.filter_cons_of_pos hx] at h
      rw [List.find?_cons_of_pos _ hx]
      injection h with h1 h2
      rw [h1]
    | false =>
      rw [List.filter_cons_of_neg (by simp [hx])] at h
      rw [List.find?_cons_of_neg _ (by simp [hx])]
      exact ih h

theorem field_of_fieldOnce {fields : List (String × Json)} {name : String} {v : Json}
    (h : fieldOnce fields name = some (some v)) :
    (Json.obj fields).field name = some v := by
  unfold fieldOnce at h
  cases hf : fields.filter (fun p => p.1 == name) with
  | nil => rw [hf] at h; exact absurd h (by simp)
  | cons a tl =>
    cases tl with
    | nil =>
      rw [hf] at h
      simp at h
      show (fields.find? (fun p => p.1 == name)).map (fun p => p.2) = some v
      rw [find?_of_filter_eq_singleton hf]
      simp [h]
    | cons b tl2 => rw [hf] at h; exact absurd h (by simp)

theorem fromJson_field_spec {T : Type} {decP : Option Json → Option T} {j : Json}
    {req : RPCRequest T} (h : RPCRequest.fromJson decP j = some req) :
    j.field "id" = some req.id := by
  cases j with
  | obj fields =>
    simp only [RPCRequest.fromJson, bind, Option.bind_eq_some, Option.pure_def,
      Option.some.injEq] at h
    obtain ⟨jrpcF, h1, jsonrpc, h2, methodF, h3, method, h4, paramsF, h5, params, h6,
      idF, h7, idv, h8, h9⟩ := h
    subst h8
    have hfo : fieldOnce fields "id" = some (some idv) := by rw [h7]
    have hfield := field_of_fieldOnce hfo
    rw [hfield]
    rw [← h9]
  | null => exact absurd h (by simp [RPCRequest.fromJson])
  | bool b => exact absurd h (by simp [RPCRequest.fromJson])
  | num n => exact absurd h (by simp [RPCRequest.fromJson])
  | str s => exact absurd h (by simp [RPCRequest.fromJson])
  | arr xs => exact absurd h (by simp [RPCRequest.fromJson])

/-- C1: the wire form produced by `RPCResponse::into_value` never carries
both a `result` and an `error` field and never lacks both; the member of
the result/error pair that is unset is omitted from the object entirely
(its key is absent, so in particular it is never emitted as `null`):
when `error` is set the object has no `result` key, and when `error` is
unset the object has no `error` key and carries the `result` field. -/
theorem into_value_result_error_exclusive (enc : T → Json) (r : RPCResponse T) :
    (((r.into_value enc).field "result").isSome && ((r.into_value enc).field "error").isSome)
      = false
  ∧ (((r.into_value enc).field "result").isSome || ((r.into_value enc).field "error").isSome)
      = true
  ∧ (r.into_value enc).field "error" = r.error.map RPCError.toJson
  ∧ (r.into_value enc).field "result" =
      (match r.error with
       | some _ => none
       | none => some (encodeOption enc r.result)) := by
  obtain ⟨jr, res, err, idv⟩ := r
  cases err <;> exact ⟨rfl, rfl, rfl, rfl⟩

/-- C2: for every list of well-formed requests, the default
`batch_handle` returns exactly as many responses as there are requests,
and at every index the response's `id` is the id of the request at the
same index — for any handler, hence on the success and on the error
outcome of `handle` alike. -/
theorem batch_handle_length_order (h : HandleFn Req Resp)
    (reqests : List (RPCRequest (Option Req))) :
    (batch_handle h reqests).length = reqests.length
  ∧ ∀ i : Nat, ((batch_handle h reqests)[i]?).map RPCResponse.id
      = (reqests[i]?).map RPCRequest.id := by
  rw [batch_handle_eq_map]
  refine ⟨List.length_map _ _, fun i => ?_⟩
  rw [List.getElem?_map]
  cases hx : reqests[i]? with
  | none => rfl
  | some req => simp [responseOf_id]

/-- C3: the four error constructors return exactly the reserved codes
and fixed messages — `parse_error` is `-32700`/"Parse error",
`invalid_params` is `-32602`/"Invalid params", `unknown_method` is
`-32601`/"Method not found", and `internal_error(data)` is
`-32603`/"Internal error" carrying the given data — and the serialized
form of any `RPCError` carries a `data` field exactly when `data` is
present (so an absent `data` is omitted from the wire form). -/
theorem rpc_error_constructors_spec :
    (RPCError.parse_error.code = -32700 ∧ RPCError.parse_error.message = "Parse error"
      ∧ RPCError.parse_error.data = none)
  ∧ (RPCError.invalid_params.code = -32602 ∧ RPCError.invalid_params.message = "Invalid params"
      ∧ RPCError.invalid_params.data = none)
  ∧ (RPCError.unknown_method.code = -32601 ∧ RPCError.unknown_method.message = "Method not found"
      ∧ RPCError.unknown_method.data = none)
  ∧ (∀ d, (RPCError.internal_error d).code = -32603
      ∧ (RPCError.internal_error d).message = "Internal error"
      ∧ (RPCError.internal_error d).data = some d)
  ∧ ∀ e : RPCError, (RPCError.toJson e).field "data" = e.data.map Json.str := by
  refine ⟨⟨rfl, rfl, rfl⟩, ⟨rfl, rfl, rfl⟩, ⟨rfl, rfl, rfl⟩, fun d => ⟨rfl, rfl, rfl⟩,
    fun e => ?_⟩
  obtain ⟨c, m, dat⟩ := e
  cases dat <;> rfl

/-- C4, counterexample: on the concrete batch `[<well-formed request>, "oops"]`
the server does not answer with a `parse_error`-coded JSON-RPC response
(code `-32700`) as the claim states: `_batch_handle` propagates the
deserialization failure as an error of the per-request future, so the
whole exchange fails at the transport level and no response body of any
kind is produced. -/
theorem batch_malformed_item_no_parse_error_response :
    handleHttpCall exHandler some (fun v => v) exBadBatch = Except.error ServerErr.decodeError
  ∧ (handleHttpCall exHandler some (fun v => v) exBadBatch).isOk = false := ⟨rfl, rfl⟩

/-- C4, amended: for every JSON array payload in which at least one item
fails to deserialize as a request, the server rejects the entire batch
with a transport-level failure (the deserialization error is propagated
and no JSON-RPC response is produced), rather than answering the
well-formed sibling items. -/
theorem batch_malformed_item_transport_failure (h : HandleFn Req Resp)
    (decR : Json → Option Req) (encResp : Resp → Json) (xs : List Json) (j : Json)
    (hmem : j ∈ xs) (hbad : RPCRequest.fromJson (decodeOptionField decR) j = none) :
    handleHttpCall h decR encResp (Json.arr xs) = Except.error ServerErr.decodeError := by
  have hdec : decodeRequestList (decodeOptionField decR) (Json.arr xs) = none :=
    mapM_eq_none_of_mem hmem hbad
  show _batch_handle h decR encResp (Json.arr xs) = Except.error ServerErr.decodeError
  unfold _batch_handle
  rw [hdec]

/-- C4, witness: the amended statement applied to the concrete batch
`[null, <well-formed request>]`, whose first item is malformed. -/
theorem batch_malformed_item_transport_failure_witness :
    handleHttpCall exHandler some (fun v => v) exBadBatchFirst
      = Except.error ServerErr.decodeError :=
  batch_malformed_item_transport_failure exHandler some (fun v => v)
    [Json.null, exGoodReq] Json.null (List.Mem.head _) rfl

/-- C5: dispatch on the decoded body's shape — a JSON object takes the
single-request path `_handle`, a JSON array takes the batch path
`_batch_handle`, and every other top-level shape (null, boolean, number,
string) resolves to the transport-level `Unsupport type` failure, under
which no JSON-RPC response exists. -/
theorem handleHttpCall_shape_dispatch (h : HandleFn Req Resp) (decR : Json → Option Req)
    (encResp : Resp → Json) (req_body : Json) :
    handleHttpCall h decR encResp req_body =
      match req_body with
      | .obj fields => _handle h decR encResp (Json.obj fields)
      | .arr xs => _batch_handle h decR encResp (Json.arr xs)
      | _ => Except.error ServerErr.unsupportType := by
  cases req_body <;> rfl

/-- C6: the dispatcher's per-request outcome — a handler error becomes a
response carrying exactly that error and the request's id, a handler
success becomes a response carrying the result and the same id; and in a
batch the response at every index is a function of the request at that
index alone, so one item's handler error cannot abort or alter any
sibling item's outcome. -/
theorem dispatcher_outcome_per_item (h : HandleFn Req Resp) :
    (∀ (reqests : List (RPCRequest (Option Req))) (i : Nat),
        ((batch_handle h reqests)[i]?) = (reqests[i]?).map (responseOf h))
  ∧ ∀ req : RPCRequest (Option Req),
      (responseOf h req).id = req.id
    ∧ (responseOf h req).error =
        (match h req.method req.params with
         | .ok _ => none
         | .error e => some e)
    ∧ (responseOf h req).result =
        (match h req.method req.params with
         | .ok v => v
         | .error _ => none) := by
  refine ⟨fun reqests i => ?_, fun req => ?_⟩
  · rw [batch_handle_eq_map, List.getElem?_map]
  · unfold responseOf
    cases h req.method req.params <;> exact ⟨rfl, rfl, rfl⟩

/-- C7: when the HTTP exchange of the client's `call` resolves with a
non-success status, `call` returns `internal_error` (code `-32603`)
with the fixed text "Failed to request uri", and the outcome is
independent of the response body and of the body parser — the body is
never parsed as a JSON-RPC error in that case. -/
theorem client_call_non_success_internal_error {B R : Type}
    (parse1 parse2 : B → Except String (RPCResponse R)) (status_code : Nat) (b1 b2 : B)
    (hfail : statusIsSuccess status_code = false) :
    call parse1 (Except.ok (status_code, b1))
      = Except.error (RPCError.internal_error "Failed to request uri")
  ∧ call parse1 (Except.ok (status_code, b1)) = call parse2 (Except.ok (status_code, b2))
  ∧ (RPCError.internal_error "Failed to request uri").code = -32603 := by
  refine ⟨?_, ?_, rfl⟩ <;> simp [call, hfail]

/-- C7, witness: status 404 with a parser that would fail and a parser
that would succeed — both give the same `internal_error`. -/
theorem client_call_non_success_internal_error_witness :
    call exParseFail (Except.ok (404, ()))
      = Except.error (RPCError.internal_error "Failed to request uri")
  ∧ call exParseFail (Except.ok (404, ())) = call exParseOk (Except.ok (404, ()))
  ∧ (RPCError.internal_error "Failed to request uri").code = -32603 :=
  client_call_non_success_internal_error exParseFail exParseOk 404 () () rfl

/-- C8: for every JSON value that deserializes as a request, serializing
the request back emits under `id` exactly the JSON value received under
`id` — the value is stored and re-emitted unchanged, so numeric, string
and null ids, and the received number representation (the model keeps
integer and floating representations distinct), are all preserved. -/
theorem request_id_roundtrip {T : Type} (decP : Option Json → Option T) (encP : T → Json)
    (j : Json) (req : RPCRequest T) (hdec : RPCRequest.fromJson decP j = some req) :
    (RPCRequest.toJson encP req).field "id" = j.field "id"
  ∧ j.field "id" = some req.id := by
  have hid := fromJson_field_spec hdec
  refine ⟨?_, hid⟩
  rw [hid]
  rfl

/-- C8, witness: the round trip at concrete requests whose ids are the
floating literal `1.0`, the string `"abc"` and `null`; the last conjunct
records that the floating representation `1.0` is distinct from the
integer representation `1`, so preserving the value preserves the
received representation. -/
theorem request_id_roundtrip_witness :
    ((RPCRequest.toJson (encodeOption (fun v => v)) exReqFloat).field "id"
        = exReqFloatId.field "id"
      ∧ exReqFloatId.field "id" = some (Json.num (JNumber.float 1 0)))
  ∧ ((RPCRequest.toJson (encodeOption (fun v => v)) exReqStr).field "id"
        = exReqStrId.field "id"
      ∧ exReqStrId.field "id" = some (Json.str "abc"))
  ∧ ((RPCRequest.toJson (encodeOption (fun v => v)) exReqNull).field "id"
        = exReqNullId.field "id"
      ∧ exReqNullId.field "id" = some Json.null)
  ∧ Json.num (JNumber.float 1 0) ≠ Json.num (JNumber.posInt 1) :=
  ⟨request_id_roundtrip (decodeOptionField some) (encodeOption (fun v => v))
      exReqFloatId exReqFloat rfl,
   request_id_roundtrip (decodeOptionField some) (encodeOption (fun v => v))
      exReqStrId exReqStr rfl,
   request_id_roundtrip (decodeOptionField some) (encodeOption (fun v => v))
      exReqNullId exReqNull rfl,
   fun hcontra => by
     injection hcontra with hnum
     exact absurd hnum (by decide)⟩

/-- C9: a JSON object payload without an `id` field (a JSON-RPC
notification) fails to deserialize as a request — for any params
decoder — so `_handle` resolves to a transport-level failure, producing
no JSON-RPC response; and the outcome is the same for any two handlers,
so the handler is never invoked. -/
theorem missing_id_transport_abort {T Req Resp : Type} (decP : Option Json → Option T)
    (h1 h2 : HandleFn Req Resp) (decR : Json → Option Req) (encResp : Resp → Json)
    (fields : List (String × Json)) (hno : ∀ p ∈ fields, ¬ p.1 = "id") :
    RPCRequest.fromJson decP (Json.obj fields) = none
  ∧ _handle h1 decR encResp (Json.obj fields) = Except.error ServerErr.decodeError
  ∧ _handle h1 decR encResp (Json.obj fields) = _handle h2 decR encResp (Json.obj fields) := by
  have hid : fieldOnce fields "id" = some none := by
    unfold fieldOnce
    have hfil : fields.filter (fun p => p.1 == "id") = [] := by
      rw [List.filter_eq_nil_iff]
      intro p hp
      simpa using hno p hp
    rw [hfil]
  have hnone : ∀ (decP' : Option Json → Option T),
      RPCRequest.fromJson decP' (Json.obj fields) = none := by
    intro decP'
    simp [RPCRequest.fromJson, hid, optionBindNone]
  have hnone2 : RPCRequest.fromJson (decodeOptionField decR) (Json.obj fields) = none := by
    simp [RPCRequest.fromJson, hid, optionBindNone]
  refine ⟨hnone decP, ?_, ?_⟩
  · unfold _handle
    rw [hnone2]
  · unfold _handle
    rw [hnone2]

/-- C9, witness: the concrete notification-style payload
`{"jsonrpc": "2.0", "method": "echo"}` aborts at the transport level
under two different handlers. -/
theorem missing_id_transport_abort_witness :
    RPCRequest.fromJson (decodeOptionField some)
      (Json.obj [("jsonrpc", Json.str "2.0"), ("method", Json.str "echo")]) = none
  ∧ _handle exHandler some (fun v => v)
      (Json.obj [("jsonrpc", Json.str "2.0"), ("method", Json.str "echo")])
      = Except.error ServerErr.decodeError
  ∧ _handle exHandler some (fun v => v)
      (Json.obj [("jsonrpc", Json.str "2.0"), ("method", Json.str "echo")])
      = _handle exHandlerReject some (fun v => v)
      (Json.obj [("jsonrpc", Json.str "2.0"), ("method", Json.str "echo")]) :=
  missing_id_transport_abort (decodeOptionField some) exHandler exHandlerReject some
    (fun v => v) [("jsonrpc", Json.str "2.0"), ("method", Json.str "echo")] (by decide)

/-- C10: the server never validates the incoming `jsonrpc` version — a
request whose `jsonrpc` is any string deserializes successfully and the
dispatcher's outcome ignores the stored version string — while every
response the dispatcher constructs, on the success and on the error path
alike, carries `jsonrpc` equal to `"2.0"`, both in the in-memory
response and in its serialized form. -/
theorem jsonrpc_version_unvalidated {Req Resp : Type} (version m : String) (pv idv : Json)
    (decR : Json → Option Req) (params : Option Req)
    (hp : decodeOptionField decR (some pv) = some params)
    (h : HandleFn Req Resp) (encResp : Resp → Json)
    (req : RPCRequest (Option Req)) (version2 : String) :
    RPCRequest.fromJson (decodeOptionField decR)
      (Json.obj [("jsonrpc", Json.str version), ("method", Json.str m),
                 ("params", pv), ("id", idv)])
      = some { jsonrpc := version, method := m, params := params, id := idv }
  ∧ responseOf h { req with jsonrpc := version2 } = responseOf h req
  ∧ (responseOf h req).jsonrpc = "2.0"
  ∧ ((responseOf h req).into_value encResp).field "jsonrpc" = some (Json.str "2.0") := by
  refine ⟨?_, rfl, ?_⟩
  · simp [RPCRequest.fromJson, fieldOnce, List.filter, decodeString, hp]
  · unfold responseOf
    cases h req.method req.params <;> exact ⟨rfl, rfl⟩

/-- C10, witness: the request `{"jsonrpc": "1.0", "method": "echo", ...}`
is decoded and dispatched normally, and the response carries `"2.0"`. -/
theorem jsonrpc_version_unvalidated_witness :
    RPCRequest.fromJson (decodeOptionField some)
      (Json.obj [("jsonrpc", Json.str "1.0"), ("method", Json.str "echo"),
                 ("params", Json.num (JNumber.posInt 7)), ("id", Json.num (JNumber.posInt 2))])
      = some { jsonrpc := "1.0", method := "echo",
               params := some (Json.num (JNumber.posInt 7)), id := Json.num (JNumber.posInt 2) }
  ∧ responseOf exHandler { exReqFloat with jsonrpc := "1.0" } = responseOf exHandler exReqFloat
  ∧ (responseOf exHandler exReqFloat).jsonrpc = "2.0"
  ∧ ((responseOf exHandler exReqFloat).into_value (fun v => v)).field "jsonrpc"
      = some (Json.str "2.0") :=
  jsonrpc_version_unvalidated "1.0" "echo" (Json.num (JNumber.posInt 7))
    (Json.num (JNumber.posInt 2)) some (some (Json.num (JNumber.posInt 7))) rfl
    exHandler (fun v => v) exReqFloat "1.0"
